import Mathlib

/-!
A shallow embedding of the single-site SEO audit crawler
(`scrapy_audit_checklist_deeplink_v2.py`) and proofs about its behaviour.

The spider's own logic — item construction (`parse`), the three duplicate
indices, the broken-link index, the probe handlers, and the final
aggregation pass (`spider_closed`) — is translated directly from the
source.  The pieces supplied by external collaborators (the Scrapy engine
that schedules requests and fires `spider_closed`, `urllib.parse`,
`hashlib.sha1`, the HTML parser) are modelled at their interface
boundaries:

* extracted page signals are the fields of `PageData` (what the
  DocumentParser collaborator returns for one fetched page);
* `urlparse`/`urljoin` are modelled for `scheme://netloc/path` URLs,
  the only forms the crawler builds;
* SHA-1 is implemented bit-for-bit over the UTF-8 bytes of the body text;
* the request scheduler/completion barrier lives in the Scrapy engine, so
  the crawl executor (`crawlStep`, `crawlDrain`, `runCrawl`) is modelled
  from the spec: a queue of pending requests, one resolution per step, the
  aggregation pass applied once when the queue drains.  The engine
  delivers every response to its callback; the HttpError middleware of the
  real framework is part of the external Fetcher boundary and is not
  modelled.

Python dicts keyed by strings are embedded as insertion-ordered
association lists (`mapAppend`/`mapLookup`), matching
`dict.setdefault(k, []).append(v)` and `dict.get(k, [])`.
-/

set_option maxRecDepth 4000

namespace WebAudit

/-! ### Small Python-flavoured helpers -/

/-- Python `s or d` for strings: the empty string is falsy. -/
def pyOr (s d : String) : String := if s = "" then d else s

/-- Python `str.lower`, per character. -/
def lowerChars (cs : List Char) : List Char := cs.map Char.toLower

/-- Python `pat in s` on character lists: `pat` occurs contiguously in `s`. -/
def containsSub (pat : List Char) : List Char → Bool
  | [] => pat.isEmpty
  | c :: rest => pat.isPrefixOf (c :: rest) || containsSub pat rest

/-- Python `pat in s` on strings. -/
def strContainsSub (s pat : String) : Bool := containsSub pat.toList s.toList

/-- First `n` characters of a string, Python `s[:n]`. -/
def strTake (s : String) (n : Nat) : List Char := s.toList.take n

/-- Iterating a Python `set` built from a list: duplicates dropped,
first occurrence kept (membership is all the code depends on). -/
def dedupKeep (l : List String) : List String :=
  l.foldl (fun acc x => if acc.contains x then acc else acc ++ [x]) []

/-- Python `str.strip()` (whitespace from both ends), structurally over
the character list. -/
def pyStrip (s : String) : String :=
  String.mk (((s.toList.dropWhile Char.isWhitespace).reverse.dropWhile
    Char.isWhitespace).reverse)

/-- Python `s.startswith(pre)`. -/
def strStartsWith (s pre : String) : Bool := pre.toList.isPrefixOf s.toList

/-- Python `s.endswith(suf)`. -/
def strEndsWith (s suf : String) : Bool := suf.toList.isSuffixOf s.toList

/-- Fuel-driven splitter on a non-empty separator (the fuel is an upper
bound on the characters consumed, so it never runs out). -/
def splitOnL (sep : List Char) : Nat → List Char → List Char → List (List Char)
  | 0, s, acc => [acc.reverse ++ s]
  | fuel + 1, s, acc =>
      match s with
      | [] => [acc.reverse]
      | c :: rest =>
          if sep.isPrefixOf (c :: rest) then
            acc.reverse :: splitOnL sep fuel (List.drop sep.length (c :: rest)) []
          else splitOnL sep fuel rest (c :: acc)

/-- `s.split(sep)` on a non-empty separator. -/
def splitOnStr (s sep : String) : List String :=
  if sep = "" then [s]
  else (splitOnL sep.toList (s.toList.length + 1) s.toList []).map String.mk

/-- Fuel-driven replace-all. -/
def replaceAllL (pat rep : List Char) : Nat → List Char → List Char
  | 0, s => s
  | fuel + 1, s =>
      match s with
      | [] => []
      | c :: rest =>
          if pat.isPrefixOf (c :: rest) then
            rep ++ replaceAllL pat rep fuel (List.drop pat.length (c :: rest))
          else c :: replaceAllL pat rep fuel rest

/-- Python `s.replace(pat, rep)` (all occurrences, non-empty pattern). -/
def strReplace (s pat rep : String) : String :=
  if pat = "" then s
  else String.mk (replaceAllL pat.toList rep.toList (s.toList.length + 1) s.toList)

/-! ### Insertion-ordered string-keyed multimaps (Python dict of lists) -/

/-- `m.setdefault(k, []).append(v)` on an insertion-ordered association list. -/
def mapAppend {α : Type} (m : List (String × List α)) (k : String) (v : α) :
    List (String × List α) :=
  match m with
  | [] => [(k, [v])]
  | (k₀, vs) :: rest =>
      if k₀ = k then (k₀, vs ++ [v]) :: rest else (k₀, vs) :: mapAppend rest k v

/-- `m.get(k, [])`. -/
def mapLookup {α : Type} (m : List (String × List α)) (k : String) : List α :=
  match m with
  | [] => []
  | (k₀, vs) :: rest => if k₀ = k then vs else mapLookup rest k

/-- The keys of the association list, in insertion order. -/
def mapKeys {α : Type} (m : List (String × List α)) : List String :=
  m.map Prod.fst

/-! ### SHA-1 over UTF-8 bytes (`hashlib.sha1(body.encode("utf-8")).hexdigest()`) -/

/-- 32-bit left rotation on a `Nat` below `2^32`. -/
def rotl32 (n x : Nat) : Nat :=
  ((x <<< n) ||| (x >>> (32 - n))) % 4294967296

/-- UTF-8 encoding of one character as byte values. -/
def utf8Bytes (c : Char) : List Nat :=
  let n := c.toNat
  if n < 128 then [n]
  else if n < 2048 then [192 ||| (n >>> 6), 128 ||| (n &&& 63)]
  else if n < 65536 then
    [224 ||| (n >>> 12), 128 ||| ((n >>> 6) &&& 63), 128 ||| (n &&& 63)]
  else
    [240 ||| (n >>> 18), 128 ||| ((n >>> 12) &&& 63),
     128 ||| ((n >>> 6) &&& 63), 128 ||| (n &&& 63)]

/-- UTF-8 bytes of a string. -/
def strBytes (s : String) : List Nat :=
  s.toList.foldr (fun c acc => utf8Bytes c ++ acc) []

/-- Big-endian bytes of a `Nat`, fixed width. -/
def beBytes (w n : Nat) : List Nat :=
  match w with
  | 0 => []
  | w + 1 => ((n >>> (8 * w)) &&& 255) :: beBytes w n

/-- SHA-1 padding: `0x80`, zeros to 56 mod 64, 8-byte big-endian bit length. -/
def sha1Pad (msg : List Nat) : List Nat :=
  let l := msg.length
  let padZeros := (56 + 64 - (l + 1) % 64) % 64
  msg ++ [128] ++ List.replicate padZeros 0 ++ beBytes 8 (8 * l)

/-- Fuel-driven 64-byte blocking (the fuel bounds the bytes consumed, so
it never runs out). -/
def chunk64F : Nat → List Nat → List (List Nat)
  | 0, _ => []
  | fuel + 1, bs =>
      match bs with
      | [] => []
      | b :: rest => ((b :: rest).take 64) :: chunk64F fuel ((b :: rest).drop 64)

/-- Split a byte list into 64-byte blocks. -/
def chunk64 (bs : List Nat) : List (List Nat) :=
  chunk64F (bs.length + 1) bs

/-- Pack consecutive 4-byte groups into big-endian 32-bit words. -/
def packWords : List Nat → List Nat
  | b0 :: b1 :: b2 :: b3 :: rest =>
      (((b0 <<< 24) ||| (b1 <<< 16)) ||| ((b2 <<< 8) ||| b3)) :: packWords rest
  | _ => []

/-- Extend 16 words to 80: `w[i] = rotl1 (w[i-3] xor w[i-8] xor w[i-14] xor w[i-16])`. -/
def sha1Expand : Nat → List Nat → List Nat
  | 0, w => w
  | n + 1, w =>
      let i := w.length
      let x := rotl32 1 (((w.getD (i - 3) 0) ^^^ (w.getD (i - 8) 0)) ^^^
                        ((w.getD (i - 14) 0) ^^^ (w.getD (i - 16) 0)))
      sha1Expand n (w ++ [x])

/-- One SHA-1 round. `t` is the round index, `wt` the message word. -/
def sha1Round (st : Nat × Nat × Nat × Nat × Nat) (t wt : Nat) :
    Nat × Nat × Nat × Nat × Nat :=
  let (a, b, c, d, e) := st
  let f :=
    if t < 20 then (b &&& c) ||| ((b ^^^ 4294967295) &&& d)
    else if t < 40 then (b ^^^ c) ^^^ d
    else if t < 60 then ((b &&& c) ||| (b &&& d)) ||| (c &&& d)
    else (b ^^^ c) ^^^ d
  let k :=
    if t < 20 then 1518500249
    else if t < 40 then 1859775393
    else if t < 60 then 2400959708
    else 3395469782
  let temp := (rotl32 5 a + f + e + k + wt) % 4294967296
  (temp, a, rotl32 30 b, c, d)

/-- Process one 64-byte block into the running hash state. -/
def sha1Block (h : Nat × Nat × Nat × Nat × Nat) (block : List Nat) :
    Nat × Nat × Nat × Nat × Nat :=
  let w := sha1Expand 64 (packWords block)
  let (h0, h1, h2, h3, h4) := h
  let st := ((List.range 80).zip w).foldl
    (fun st p => sha1Round st p.1 p.2) (h0, h1, h2, h3, h4)
  let (a, b, c, d, e) := st
  ((h0 + a) % 4294967296, (h1 + b) % 4294967296, (h2 + c) % 4294967296,
   (h3 + d) % 4294967296, (h4 + e) % 4294967296)

/-- Hex digit characters. -/
def hexDigit (n : Nat) : Char :=
  "0123456789abcdef".toList.getD n '0'

/-- Lower-case hex rendering of a 32-bit word, 8 digits. -/
def hex8 (n : Nat) : List Char :=
  ((List.range 8).reverse).map (fun i => hexDigit ((n >>> (4 * i)) &&& 15))

/-- `hashlib.sha1(s.encode("utf-8")).hexdigest()`. -/
def sha1Hex (s : String) : String :=
  let blocks := chunk64 (sha1Pad (strBytes s))
  let (h0, h1, h2, h3, h4) := blocks.foldl sha1Block
    (1732584193, 4023233417, 2562383102, 271733878, 3285377520)
  String.mk (hex8 h0 ++ hex8 h1 ++ hex8 h2 ++ hex8 h3 ++ hex8 h4)

/-! ### URL handling

Modelled from `urllib.parse.urlparse` / `urljoin` restricted to the URL
forms this crawler builds: `scheme://netloc/path` plus scheme-absolute
hrefs and root-relative / directory-relative hrefs.  Query strings,
fragments, `..` segments and protocol-relative (`//host`) hrefs are not
modelled; no claim depends on them. -/

structure URLParts where
  scheme : String
  netloc : String
  path : String
deriving DecidableEq

/-- Split a URL into scheme, netloc and path. -/
def urlparse (u : String) : URLParts :=
  match splitOnStr u "://" with
  | [] => ⟨"", "", ""⟩
  | [single] => ⟨"", "", single⟩
  | scheme :: rest =>
      let r := String.intercalate "://" rest
      match splitOnStr r "/" with
      | [] => ⟨scheme, r, ""⟩
      | netloc :: pathParts =>
          ⟨scheme, netloc,
           if pathParts = [] then "" else "/" ++ String.intercalate "/" pathParts⟩

/-- The directory part of a path, up to and including the last `/`
(the root `/` when the path has no slash). -/
def dirOf (p : String) : String :=
  let pre := ((p.toList.reverse.dropWhile (fun c => c ≠ '/')).reverse)
  if pre = [] then "/" else String.mk pre

/-- Resolve an href against a base URL. -/
def urljoin (base href : String) : String :=
  if strContainsSub href "://" then href
  else if href = "" then base
  else
    let b := urlparse base
    if strStartsWith href "/" then b.scheme ++ "://" ++ b.netloc ++ href
    else b.scheme ++ "://" ++ b.netloc ++ dirOf b.path ++ href

/-! ### Data model -/

/-- A recorded broken-link status: an HTTP status code or the `"ERR"`
marker written by the link errback. -/
inductive LinkStatus where
  | code (n : Nat)
  | err
deriving DecidableEq

/-- The values the spider stores in `site_info["custom_404"]`:
Python `True`, `"present_but_200"`, `False` (alongside `None` = unknown,
modelled by `Option`). -/
inductive Custom404Val where
  | trueVal
  | presentBut200
  | falseVal
deriving DecidableEq

/-- `self.site_info`: each field starts as Python `None` (here `none`) and
is written by at most one probe handler. -/
structure SiteInfo where
  robots_exists : Option Bool
  html_sitemap_exists : Option Bool
  xml_sitemap_exists : Option Bool
  custom_404 : Option Custom404Val
  http_https : Option Bool
  www_nonwww : Option Bool
deriving DecidableEq

/-- The initial `site_info` dict: every field `None`. -/
def initialSiteInfo : SiteInfo :=
  ⟨none, none, none, none, none, none⟩

/-- One row of the report: the `item` dict built in `parse`.  Field names
follow the CSV column names.  Columns that are constant blanks
(`Google Index`, `URL Friendliness`, `Top Level Navigation (TLN) Analysis`,
PageSpeed/mobile columns, `Broken Images` = 0) and the four columns that
render the shared `site_info` snapshot (`Robots.txt`, `HTML Sitemap`,
`XML Sitemap`, `Custom 404 Page`, `www. & non www version check`) are not
referenced by any verified property and are omitted. -/
structure Item where
  websiteURL : String            -- "Website URL"
  status : Nat                   -- "Status"
  httpHttpsCheck : String        -- "http & https check"
  metaTitle : String             -- "Meta Title"
  missingMetaTitle : String      -- "Missing Meta Title"
  duplicateMetaTitle : String    -- "Duplicate Meta Title"
  metaDescription : String       -- "Meta Description"
  missingMetaDescription : String
  duplicateMetaDescription : String
  headingSubheadings : String    -- "Heading/Sub-headings"
  missingH1 : String             -- "Missing Heading (H1)"
  multipleH1 : String            -- "Multiple Heading (H1)"
  imageAltTags : String          -- "Image ALT Tags"
  urlDelimiterCheck : String     -- "URL Delimiter Check"
  absoluteVsRelativeURLs : String
  checkForBreadcrumbs : String
  footerAnalysis : String
  brokenLinks : String           -- "Broken Links"
  schemaMarkup : String
  useOfStructuredData : String
  duplicateContent : String      -- "Duplicate Content"
  brokenLinksCount : Nat         -- "Broken Links Count"
  imgsMissingAltCount : Nat      -- "Imgs Missing Alt Count"
  missingMetaTitle10 : Nat       -- "Missing Meta Title (1/0)"
  missingMetaDescription10 : Nat -- "Missing Meta Description (1/0)"
  duplicateMetaTitle10 : Nat     -- "Duplicate Meta Title (1/0)"
  duplicateMetaDescription10 : Nat
  duplicateContent10 : Nat       -- "Duplicate Content (1/0)"
  missingTitle10 : Nat           -- "Missing Title (1/0)"
deriving DecidableEq

/-- What the DocumentParser collaborator extracts from one fetched page:
the response metadata plus the results of the XPath queries `parse` runs.
`url` is the final URL after any redirect and `text` the raw body. -/
structure PageData where
  url : String
  status : Nat
  text : String
  titleText : Option String          -- //title/text() (first)
  metaDescContent : Option String    -- //meta[@name='description']/@content
  h1Count : Nat                      -- len(//h1)
  imgsMissingAlt : Nat               -- len(//img[not(@alt)])
  breadcrumbsFound : Bool
  footerFound : Bool
  hrefs : List String                -- //a/@href
  bodyTexts : List String            -- //body//text()
  hasLdJson : Bool                   -- //script[@type='application/ld+json']
  xmlLocs : List String              -- //url/loc/text()
deriving DecidableEq

/-- The mutable spider attributes set up in `__init__`. -/
structure SpiderState where
  start_urls : List String
  site_root : String
  results : List Item
  title_map : List (String × List String)
  meta_map : List (String × List String)
  bodyhash_map : List (String × List String)
  broken_links_map : List (String × List (String × LinkStatus))
  site_info : SiteInfo
deriving DecidableEq

/-- Errors `__init__` can raise: the explicit `ValueError` for a missing
seed, and the `IndexError` from `self.start_urls[0]` when the URLs file
holds no usable line. -/
inductive InitError where
  | valueError (msg : String)
  | indexError
deriving DecidableEq

/-- The spider state right after `__init__` succeeded with the given
`start_urls` list. -/
def initialSpider (start_urls : List String) : SpiderState :=
  let parsed := urlparse (start_urls.headD "")
  { start_urls := start_urls
    site_root := parsed.scheme ++ "://" ++ parsed.netloc
    results := []
    title_map := []
    meta_map := []
    bodyhash_map := []
    broken_links_map := []
    site_info := initialSiteInfo }

/-- Python truthiness of an optional string argument (`None` and `""` are
falsy). -/
def truthyO : Option String → Bool
  | none => false
  | some s => s ≠ ""

/-- `__init__(start_url, sitemap, urls_file)`.  A provided, readable URLs
file is modelled as `some lines`; `none` covers both an absent and a
falsy `urls_file` argument. -/
def spiderInit (start_url sitemap : Option String) (urls_file : Option (List String)) :
    Except InitError SpiderState :=
  match urls_file with
  | some lines =>
      match (lines.map pyStrip).filter (fun l => l ≠ "") with
      | [] => .error .indexError
      | us => .ok (initialSpider us)
  | none =>
      if truthyO start_url then .ok (initialSpider [start_url.getD ""])
      else if truthyO sitemap then .ok (initialSpider [sitemap.getD ""])
      else .error (.valueError "Provide start_url=, sitemap= or urls_file=")

/-! ### Probe handlers -/

/-- A response as delivered to a probe callback. -/
structure ProbeResponse where
  url : String
  status : Nat
  text : String
deriving DecidableEq

/-- `_parse_robots`. -/
def parse_robots (si : SiteInfo) (r : ProbeResponse) : SiteInfo :=
  { si with robots_exists := some (r.status = 200 ∧ (pyStrip r.text).length > 0 : Bool) }

/-- `_parse_sitemap_probe`. -/
def parse_sitemap_probe (si : SiteInfo) (r : ProbeResponse) : SiteInfo :=
  if r.status = 200 ∧
     (strEndsWith r.url ".xml" ∨ containsSub "<urlset".toList (lowerChars (strTake r.text 2000))) then
    { si with xml_sitemap_exists := some true }
  else if r.status = 200 ∧ containsSub "<html".toList (lowerChars (strTake r.text 2000)) then
    { si with html_sitemap_exists := some true }
  else si

/-- `_parse_404_probe`. -/
def parse_404_probe (si : SiteInfo) (r : ProbeResponse) : SiteInfo :=
  if r.status = 404 then
    { si with custom_404 := some .trueVal }
  else
    let lowered := (lowerChars r.text.toList).take 2000
    if containsSub "404".toList lowered ∨ containsSub "not found".toList lowered ∨
       containsSub "page not found".toList lowered then
      { si with custom_404 := some .presentBut200 }
    else
      { si with custom_404 := some .falseVal }

/-- `_parse_http_probe`. -/
def parse_http_probe (si : SiteInfo) (r : ProbeResponse) : SiteInfo :=
  { si with http_https := some (strStartsWith r.url "https://") }

/-- `_parse_www_probe`. -/
def parse_www_probe (si : SiteInfo) (r : ProbeResponse) : SiteInfo :=
  { si with www_nonwww := some (r.status = 200 : Bool) }

/-- `_errback_probe`: swallows the failure, touches nothing. -/
def errback_probe (si : SiteInfo) : SiteInfo := si

/-! ### Per-page parse -/

/-- The sitemap-discovery guard at the top of `parse`:
`response.url.endswith('.xml') and '<urlset' in response.text[:2000].lower()`. -/
def isSitemapResponse (pd : PageData) : Bool :=
  strEndsWith pd.url ".xml" &&
    containsSub "<urlset".toList (lowerChars (strTake pd.text 2000))

/-- The `item` dict built in `parse` for one non-sitemap page. -/
def mkItem (pd : PageData) : Item :=
  let title := pyStrip (pd.titleText.getD "")
  let meta_desc := pyStrip (pd.metaDescContent.getD "")
  let url_path := (urlparse pd.url).path
  let url_delimiter_ok := ¬ url_path.toList.contains '_'
  let rel_count := (pd.hrefs.filter (fun l => decide (l ≠ "") && ! strStartsWith l "http")).length
  let abs_count := (pd.hrefs.filter (fun l => decide (l ≠ "") && strStartsWith l "http")).length
  { websiteURL := pd.url
    status := pd.status
    httpHttpsCheck := if strStartsWith pd.url "https://" then "HTTPS" else "HTTP"
    metaTitle := title
    missingMetaTitle := if title = "" then "X" else "√"
    duplicateMetaTitle := ""
    metaDescription := meta_desc
    missingMetaDescription := if meta_desc = "" then "X" else "√"
    duplicateMetaDescription := ""
    headingSubheadings := if pd.h1Count > 0 then "Has H1" else "Missing H1"
    missingH1 := if pd.h1Count = 0 then "X" else ""
    multipleH1 := if pd.h1Count > 1 then "X" else ""
    imageAltTags := toString pd.imgsMissingAlt ++ " missing alt"
    urlDelimiterCheck := if url_delimiter_ok then "√" else "X"
    absoluteVsRelativeURLs := if rel_count > abs_count then "relative" else "absolute"
    checkForBreadcrumbs := if pd.breadcrumbsFound then "√" else "X"
    footerAnalysis := if pd.footerFound then "√" else "X"
    brokenLinks := ""
    schemaMarkup := if pd.hasLdJson then "√" else "X"
    useOfStructuredData := if pd.hasLdJson then "Yes" else "No"
    duplicateContent := ""
    brokenLinksCount := 0
    imgsMissingAltCount := pd.imgsMissingAlt
    missingMetaTitle10 := if title = "" then 1 else 0
    missingMetaDescription10 := if meta_desc = "" then 1 else 0
    duplicateMetaTitle10 := 0
    duplicateMetaDescription10 := 0
    duplicateContent10 := 0
    missingTitle10 := if title = "" then 1 else 0 }

/-- Requests the spider schedules.  A link-validation request carries its
target URL plus the `meta` dict entries `parent` and `link_target`. -/
inductive ProbeKind where
  | robots
  | sitemapCand
  | notFound
  | httpCheck
  | wwwCheck
deriving DecidableEq

inductive Request where
  | probe (kind : ProbeKind) (url : String)
  | discovery (url : String)
  | linkCheck (url : String) (parentMeta : String) (linkTargetMeta : String)
deriving DecidableEq

/-- The internal-link set a page contributes: every non-empty href is
resolved against the page URL and kept when its netloc equals the seed
netloc (Python builds a `set`; membership is what matters, the model
keeps first occurrences). -/
def internalLinks (site_root : String) (pd : PageData) : List String :=
  let base_netloc := (urlparse site_root).netloc
  dedupKeep (pd.hrefs.filterMap (fun href =>
    if href = "" then none
    else
      let href_full := urljoin pd.url href
      if (urlparse href_full).netloc = base_netloc then some href_full else none))

/-- `parse(response)`: the state mutations plus the yielded requests, in
the order the generator produces them (link checks first, then the
discovery re-crawl; both are issued `dont_filter=True`). -/
def parse (s : SpiderState) (pd : PageData) : SpiderState × List Request :=
  if isSitemapResponse pd then
    (s, pd.xmlLocs.map (fun loc => Request.discovery (pyStrip loc)))
  else
    let title := pyStrip (pd.titleText.getD "")
    let meta_desc := pyStrip (pd.metaDescContent.getD "")
    let body_text := pyStrip (String.join pd.bodyTexts)
    let item := mkItem pd
    let t := pyOr (pyStrip title) "(no title)"
    let md := pyOr (pyStrip meta_desc) "(no meta)"
    let s₁ := { s with
      title_map := mapAppend s.title_map t pd.url
      meta_map := mapAppend s.meta_map md pd.url
      bodyhash_map :=
        if body_text ≠ "" then mapAppend s.bodyhash_map (sha1Hex body_text) pd.url
        else s.bodyhash_map }
    let s₂ := { s₁ with results := s₁.results ++ [item] }
    let internal := internalLinks s.site_root pd
    (s₂, internal.map (fun l => Request.linkCheck l pd.url l)
          ++ internal.map Request.discovery)

/-! ### Link validation -/

/-- A response as delivered to `check_link`, with its request `meta`. -/
structure LinkCheckResponse where
  url : String              -- final URL after any redirect
  status : Nat
  metaParent : String
  metaLinkTarget : String
deriving DecidableEq

/-- A failed link-validation request, as seen by the errback. -/
structure FailedRequest where
  url : String
  metaParent : String
  metaLinkTarget : String
deriving DecidableEq

/-- `check_link(response)` acting on `self.broken_links_map`.  (The
scheduler always sets both `meta` keys, so `parent` is modelled as a
plain string.) -/
def check_link (m : List (String × List (String × LinkStatus)))
    (resp : LinkCheckResponse) : List (String × List (String × LinkStatus)) :=
  if resp.status ≥ 400 then
    mapAppend m resp.metaParent (resp.url, LinkStatus.code resp.status)
  else m

/-- `_link_errback(failure)` acting on `self.broken_links_map`. -/
def link_errback (m : List (String × List (String × LinkStatus)))
    (req : FailedRequest) : List (String × List (String × LinkStatus)) :=
  let link := pyOr req.metaLinkTarget req.url
  mapAppend m req.metaParent (link, LinkStatus.err)

/-! ### Final aggregation pass (`spider_closed`) -/

/-- `{t for t, urls in title_map.items() if len(urls) > 1 and t != "(no title)"}`. -/
def titleDupes (s : SpiderState) : List String :=
  (s.title_map.filter (fun e => e.2.length > 1 ∧ e.1 ≠ "(no title)" : _ → Bool)).map Prod.fst

/-- The duplicate meta-description keys. -/
def metaDupes (s : SpiderState) : List String :=
  (s.meta_map.filter (fun e => e.2.length > 1 ∧ e.1 ≠ "(no meta)" : _ → Bool)).map Prod.fst

/-- `{h for h, urls in bodyhash_map.items() if len(urls) > 1}`. -/
def bodyDupeHashes (s : SpiderState) : List String :=
  (s.bodyhash_map.filter (fun e => e.2.length > 1 : _ → Bool)).map Prod.fst

/-- `f"{t}({s})"` for one broken-link entry. -/
def fmtBroken (e : String × LinkStatus) : String :=
  e.1 ++ "(" ++ (match e.2 with | .code n => toString n | .err => "ERR") ++ ")"

/-- The `for h, urls in self.bodyhash_map.items()` search in
`spider_closed`: does any (duplicate-hash) entry list this URL? -/
def foundDupContent (s : SpiderState) (u : String) : Bool :=
  s.bodyhash_map.any (fun e => e.2.contains u && (bodyDupeHashes s).contains e.1)

/-- The per-record reconciliation step of the `for r in self.results`
loop in `spider_closed`. -/
def aggRecord (s : SpiderState) (r : Item) : Item :=
  let broken_list := mapLookup s.broken_links_map r.websiteURL
  let t := pyOr (pyStrip r.metaTitle) "(no title)"
  let md := pyOr (pyStrip r.metaDescription) "(no meta)"
  let found_dup := foundDupContent s r.websiteURL
  { r with
    brokenLinksCount := broken_list.length
    brokenLinks := String.intercalate "; " ((broken_list.take 10).map fmtBroken)
    duplicateMetaTitle :=
      if (titleDupes s).contains t then "X" else r.duplicateMetaTitle
    duplicateMetaTitle10 := if (titleDupes s).contains t then 1 else 0
    duplicateMetaDescription :=
      if (metaDupes s).contains md then "X" else r.duplicateMetaDescription
    duplicateMetaDescription10 := if (metaDupes s).contains md then 1 else 0
    duplicateContent := if found_dup then "X" else r.duplicateContent
    duplicateContent10 := if found_dup then 1 else 0 }

/-- `spider_closed`, up to the file writing handed to the ReportWriter:
reconcile every record against the frozen indices.  The indices
themselves are read-only here. -/
def spider_closed (s : SpiderState) : SpiderState :=
  { s with results := s.results.map (aggRecord s) }

/-- The site-wide totals written to the summary file (each is recomputed
there as a sum over the result rows). -/
structure Totals where
  totalPages : Nat
  totalBrokenLinks : Nat
  totalPagesMissingTitle : Nat
  totalImgsMissingAlt : Nat
  totalDupTitlePages : Nat
  totalDupMetaPages : Nat
  totalDupContentPages : Nat
deriving DecidableEq

/-- The summary totals of `spider_closed`. -/
def summaryTotals (s : SpiderState) : Totals :=
  { totalPages := s.results.length
    totalBrokenLinks := (s.results.map Item.brokenLinksCount).sum
    totalPagesMissingTitle := (s.results.map Item.missingMetaTitle10).sum
    totalImgsMissingAlt := (s.results.map Item.imgsMissingAltCount).sum
    totalDupTitlePages := (s.results.map Item.duplicateMetaTitle10).sum
    totalDupMetaPages := (s.results.map Item.duplicateMetaDescription10).sum
    totalDupContentPages := (s.results.map Item.duplicateContent10).sum }

/-! ### Crawl orchestration

The scheduler, in-flight bookkeeping and the `spider_closed` signal are
supplied by the Scrapy engine, not by the repository source.  Modelled
from the spec: a queue of scheduled-but-unresolved requests (its length
is the in-flight counter), one request resolved per step, every
resolution allowed to enqueue follow-up work, and the Aggregator applied
exactly once when — and only when — the queue has drained.  A site is a
partial function from request URL to the fetched page; `none` is a fetch
failure (or a response withheld from the callback), routed to the
request's errback when it has one. -/

/-- `start_requests`: the probe requests, then the seed discovery
requests.  `randToken` stands for the 14 random characters of the
404-probe path. -/
def start_requests (s : SpiderState) (randToken : String) : List Request :=
  let parsed := urlparse s.site_root
  [Request.probe .robots (urljoin s.site_root "/robots.txt"),
   Request.probe .sitemapCand (urljoin s.site_root "/sitemap.xml"),
   Request.probe .sitemapCand (urljoin s.site_root "/sitemap_index.xml"),
   Request.probe .sitemapCand (urljoin s.site_root "/sitemap.html"),
   Request.probe .notFound (urljoin s.site_root ("/.well-known/" ++ randToken))]
  ++ (if parsed.scheme = "https" then
        [Request.probe .httpCheck ("http://" ++ parsed.netloc)] else [])
  ++ [Request.probe .wwwCheck
        (parsed.scheme ++ "://" ++
          (if strStartsWith parsed.netloc "www."
           then strReplace parsed.netloc "www." "" else "www." ++ parsed.netloc))]
  ++ s.start_urls.map Request.discovery

/-- The crawl-session state: pending requests, the spider, and a count of
Aggregator invocations (the spec's "runs exactly once" instrumentation). -/
structure CrawlState where
  queue : List Request
  spider : SpiderState
  aggCount : Nat
deriving DecidableEq

/-- Dispatch one probe response to its handler. -/
def probeDispatch (k : ProbeKind) (si : SiteInfo) (r : ProbeResponse) : SiteInfo :=
  match k with
  | .robots => parse_robots si r
  | .sitemapCand => parse_sitemap_probe si r
  | .notFound => parse_404_probe si r
  | .httpCheck => parse_http_probe si r
  | .wwwCheck => parse_www_probe si r

/-- Resolve the front request: fetch it, run the matching callback (or
errback on failure), enqueue whatever the callback yields.  Discovery
requests have no errback in the source; their failures are dropped. -/
def crawlStep (site : String → Option PageData) (c : CrawlState) : CrawlState :=
  match c.queue with
  | [] => c
  | req :: rest =>
      match req with
      | .probe k u =>
          match site u with
          | none => { c with queue := rest,
                             spider := { c.spider with
                               site_info := errback_probe c.spider.site_info } }
          | some pd =>
              { c with queue := rest,
                       spider := { c.spider with
                         site_info := probeDispatch k c.spider.site_info
                           ⟨pd.url, pd.status, pd.text⟩ } }
      | .discovery u =>
          match site u with
          | none => { c with queue := rest }
          | some pd =>
              let (s₁, reqs) := parse c.spider pd
              { c with queue := rest ++ reqs, spider := s₁ }
      | .linkCheck u parent target =>
          match site u with
          | none =>
              { c with queue := rest,
                       spider := { c.spider with
                         broken_links_map :=
                           link_errback c.spider.broken_links_map ⟨u, parent, target⟩ } }
          | some pd =>
              { c with queue := rest,
                       spider := { c.spider with
                         broken_links_map :=
                           check_link c.spider.broken_links_map
                             ⟨pd.url, pd.status, parent, target⟩ } }

/-- Iterate `n` resolution steps. -/
def crawlSteps (site : String → Option PageData) : Nat → CrawlState → CrawlState
  | 0, c => c
  | n + 1, c => crawlSteps site n (crawlStep site c)

/-- Step until the queue drains, with fuel; `none` when the crawl is
still in flight after `fuel` steps. -/
def crawlDrain (site : String → Option PageData) : Nat → CrawlState → Option CrawlState
  | 0, _ => none
  | fuel + 1, c =>
      if c.queue = [] then some c
      else crawlDrain site fuel (crawlStep site c)

/-- Run the Aggregator on a drained session. -/
def closeCrawl (c : CrawlState) : CrawlState :=
  { c with spider := spider_closed c.spider, aggCount := c.aggCount + 1 }

/-- A whole crawl: drain the queue, then the Aggregator pass. -/
def runCrawl (site : String → Option PageData) (fuel : Nat) (c : CrawlState) :
    Option CrawlState :=
  (crawlDrain site fuel c).map closeCrawl

/-- Replaying only the discovery callbacks over a list of fetched pages:
the fold `buildState` produces the spider state whose indices and
results the aggregation pass then reconciles. -/
def foldParse (s : SpiderState) (pages : List PageData) : SpiderState :=
  pages.foldl (fun st pd => (parse st pd).1) s

/-- The spider state after parsing `pages` from a fresh spider seeded at
`root`. -/
def buildState (root : String) (pages : List PageData) : SpiderState :=
  foldParse (initialSpider [root]) pages

/-- The normalized title key `parse` inserts for a page:
`title.strip() or "(no title)"` applied to the already-stripped title. -/
def titleKey (pd : PageData) : String :=
  pyOr (pyStrip (pyStrip (pd.titleText.getD ""))) "(no title)"

/-- The normalized meta-description key `parse` inserts for a page. -/
def metaKey (pd : PageData) : String :=
  pyOr (pyStrip (pyStrip (pd.metaDescContent.getD ""))) "(no meta)"

/-- The body-content hash `parse` computes for a page: `none` when the
joined visible body text strips to the empty string. -/
def bodyHashOf (pd : PageData) : Option String :=
  let body_text := pyStrip (String.join pd.bodyTexts)
  if body_text ≠ "" then some (sha1Hex body_text) else none

/-! ### Concrete crawl fixtures (used to evaluate the theorems) -/

/-- A page fixture: one fetched page with the given title, description,
visible body text nodes and anchor hrefs. -/
def mkPage (u title metaDesc : String) (body : List String) (hrefs : List String) :
    PageData :=
  { url := u, status := 200, text := "<html><body></body></html>",
    titleText := if title = "" then none else some title,
    metaDescContent := if metaDesc = "" then none else some metaDesc,
    h1Count := 1, imgsMissingAlt := 0, breadcrumbsFound := false, footerFound := true,
    hrefs := hrefs, bodyTexts := body, hasLdJson := false, xmlLocs := [] }

/-- Three pages: two sharing a title, a description and body text, one
distinct. -/
def C1pages : List PageData :=
  [mkPage "https://s.example/a" "Home" "Welcome" ["same body"] [],
   mkPage "https://s.example/b" "Home" "Welcome" ["same body"] [],
   mkPage "https://s.example/c" "Other" "Else" ["different body"] []]

/-- The aggregated record of the first fixture page. -/
def C1row : Item :=
  aggRecord (buildState "https://s.example/" C1pages)
    (mkItem (mkPage "https://s.example/a" "Home" "Welcome" ["same body"] []))

/-- Two mutually-linking pages (a two-page cycle). -/
def C2pageA : PageData :=
  mkPage "https://site.example/a" "" "" [] ["https://site.example/b"]

def C2pageB : PageData :=
  mkPage "https://site.example/b" "" "" [] ["https://site.example/a"]

/-- The cyclic two-page site. -/
def C2site : String → Option PageData := fun u =>
  if u = "https://site.example/a" then some C2pageA
  else if u = "https://site.example/b" then some C2pageB
  else none

/-- A crawl session about to fetch the seed of the cyclic site. -/
def C2start : CrawlState :=
  { queue := [Request.discovery "https://site.example/a"],
    spider := initialSpider ["https://site.example/a"], aggCount := 0 }

/-- A one-page site with no outgoing links. -/
def C3site : String → Option PageData := fun u =>
  if u = "https://one.example/" then some (mkPage "https://one.example/" "One" "" [] [])
  else none

def C3start : CrawlState :=
  { queue := [Request.discovery "https://one.example/"],
    spider := initialSpider ["https://one.example/"], aggCount := 0 }

/-- A state with one page record and twelve broken-link entries recorded
against its URL. -/
def C4state : SpiderState :=
  { initialSpider ["https://site.example/"] with
      results := [mkItem (mkPage "https://site.example/" "Home" "" [] [])],
      broken_links_map :=
        [("https://site.example/",
          (List.range 12).map
            (fun i => ("https://site.example/dead" ++ toString i, LinkStatus.code 404)))] }

def C4row : Item :=
  aggRecord C4state (mkItem (mkPage "https://site.example/" "Home" "" [] []))

/-- A sitemap-candidate response: status 200, URL ending in `.xml`, but an
HTML body with no `<urlset` marker. -/
def C6resp : ProbeResponse :=
  ⟨"https://site.example/sitemap.xml", 200, "<html><body>hello</body></html>"⟩

/-- A soft-404 response: status 200, body mentioning "not found". -/
def C7resp : ProbeResponse :=
  ⟨"https://site.example/.well-known/abcdefghijklmn", 200,
   "<html>Sorry, page not found.</html>"⟩

/-- A redirected link-validation response: the final URL differs from the
scheduled target carried in `meta`. -/
def C8resp : LinkCheckResponse :=
  ⟨"https://site.example/redirected-target", 404,
   "https://site.example/page", "https://site.example/original-target"⟩

def C8req : FailedRequest :=
  ⟨"https://site.example/gone", "https://site.example/page",
   "https://site.example/gone"⟩

/-- A failed sitemap candidate: status 404. -/
def C6resp2 : ProbeResponse :=
  ⟨"https://site.example/sitemap_index.xml", 404, "nope"⟩

/-! ## Lemmas about the association-list maps -/

theorem mapLookup_mapAppend {α : Type} (m : List (String × List α)) (k : String)
    (v : α) (k' : String) :
    mapLookup (mapAppend m k v) k' =
      if k' = k then mapLookup m k ++ [v] else mapLookup m k' := by
  induction m with
  | nil =>
      by_cases h : k' = k
      · subst h; simp [mapAppend, mapLookup]
      · have h' : ¬ k = k' := fun he => h he.symm
        simp [mapAppend, mapLookup, h, h']
  | cons e rest ih =>
      obtain ⟨k₀, vs⟩ := e
      by_cases h0 : k₀ = k
      · subst h0
        by_cases h : k' = k₀
        · subst h; simp [mapAppend, mapLookup]
        · have h' : ¬ k₀ = k' := fun he => h he.symm
          simp [mapAppend, mapLookup, h, h']
      · by_cases h : k' = k
        · subst h
          simp [mapAppend, mapLookup, h0, ih]
        · simp [mapAppend, mapLookup, h0, h, ih]

theorem mapKeys_mapAppend {α : Type} (m : List (String × List α)) (k : String) (v : α) :
    mapKeys (mapAppend m k v) =
      if k ∈ mapKeys m then mapKeys m else mapKeys m ++ [k] := by
  induction m with
  | nil => simp [mapAppend, mapKeys]
  | cons e rest ih =>
      obtain ⟨k₀, vs⟩ := e
      by_cases h0 : k₀ = k
      · subst h0
        simp [mapAppend, mapKeys]
      · have hne : ¬ k = k₀ := fun he => h0 he.symm
        have hstep : mapAppend ((k₀, vs) :: rest) k v = (k₀, vs) :: mapAppend rest k v := by
          simp [mapAppend, h0]
        have hkeys : ∀ (e : String × List α) (l : List (String × List α)),
            mapKeys (e :: l) = e.1 :: mapKeys l := fun _ _ => rfl
        rw [hstep, hkeys, hkeys, ih]
        by_cases hmem : k ∈ mapKeys rest
        · rw [if_pos hmem,
             if_pos (show k ∈ k₀ :: mapKeys rest from List.mem_cons_of_mem _ hmem)]
        · rw [if_neg hmem, if_neg (show ¬ k ∈ k₀ :: mapKeys rest from ?_)]
          · simp
          · intro hc
            rcases List.mem_cons.mp hc with h1 | h1
            · exact hne h1
            · exact hmem h1

theorem nodup_mapKeys_mapAppend {α : Type} (m : List (String × List α)) (k : String)
    (v : α) (h : (mapKeys m).Nodup) : (mapKeys (mapAppend m k v)).Nodup := by
  rw [mapKeys_mapAppend]
  by_cases hmem : k ∈ mapKeys m
  · simpa [hmem] using h
  · rw [if_neg hmem]
    refine List.Nodup.append h (List.nodup_singleton k) ?_
    intro a ha hb
    rw [List.mem_singleton] at hb
    subst hb
    exact hmem ha

theorem mapLookup_eq_nil_of_not_mem {α : Type} (m : List (String × List α))
    (k : String) (h : k ∉ mapKeys m) : mapLookup m k = [] := by
  induction m with
  | nil => rfl
  | cons e rest ih =>
      obtain ⟨k₀, vs⟩ := e
      simp only [mapKeys, List.map_cons, List.mem_cons] at h
      push_neg at h
      have hne : ¬ k₀ = k := fun he => h.1 he.symm
      simpa [mapLookup, hne] using ih (by simpa [mapKeys] using h.2)

theorem mem_of_mem_mapKeys {α : Type} (m : List (String × List α)) (k : String)
    (h : k ∈ mapKeys m) : (k, mapLookup m k) ∈ m := by
  induction m with
  | nil => simp [mapKeys] at h
  | cons e rest ih =>
      obtain ⟨k₀, vs⟩ := e
      by_cases he : k₀ = k
      · subst he
        simp [mapLookup]
      · have hk : k ∈ mapKeys rest := by
          rcases (by simpa [mapKeys] using h : k = k₀ ∨ k ∈ mapKeys rest) with h1 | h1
          · exact absurd h1.symm he
          · exact h1
        simp only [mapLookup, if_neg he]
        exact List.mem_cons_of_mem _ (ih hk)

theorem lookup_of_mem_of_nodup {α : Type} (m : List (String × List α))
    (k : String) (vs : List α) (hnd : (mapKeys m).Nodup) (h : (k, vs) ∈ m) :
    mapLookup m k = vs := by
  induction m with
  | nil => simp at h
  | cons e rest ih =>
      obtain ⟨k₀, vs₀⟩ := e
      have hnd' : k₀ ∉ mapKeys rest ∧ (mapKeys rest).Nodup := by
        simpa [mapKeys, List.nodup_cons] using hnd
      rcases List.mem_cons.mp h with h1 | h1
      · cases h1
        simp [mapLookup]
      · have hk : k ∈ mapKeys rest := by
          simpa [mapKeys] using List.mem_map_of_mem Prod.fst h1
        have hne : ¬ k₀ = k := fun he => hnd'.1 (he ▸ hk)
        simp only [mapLookup, if_neg hne]
        exact ih hnd'.2 h1

/-- Membership in a duplicate-key set built by filter-then-project, in
terms of the lookup at that key, for maps with distinct keys. -/
theorem mem_filter_keys_iff {α : Type} (m : List (String × List α))
    (P : String × List α → Bool) (t : String) (hnd : (mapKeys m).Nodup) :
    t ∈ (m.filter P).map Prod.fst ↔ t ∈ mapKeys m ∧ P (t, mapLookup m t) = true := by
  constructor
  · intro h
    rcases List.mem_map.mp h with ⟨⟨k, vs⟩, hmem, hfst⟩
    rcases List.mem_filter.mp hmem with ⟨hm, hP⟩
    have hk : k = t := hfst
    subst hk
    refine ⟨by simpa [mapKeys] using List.mem_map_of_mem Prod.fst hm, ?_⟩
    rwa [lookup_of_mem_of_nodup m k vs hnd hm]
  · rintro ⟨hmem, hP⟩
    exact List.mem_map.mpr ⟨(t, mapLookup m t),
      List.mem_filter.mpr ⟨mem_of_mem_mapKeys m t hmem, hP⟩, rfl⟩

/-! ## Substring check and list infixes -/

theorem containsSub_infix_iff (p : List Char) : ∀ s : List Char,
    containsSub p s = true ↔ p <:+: s := by
  intro s
  induction s with
  | nil =>
      simp [containsSub, List.isEmpty_iff]
  | cons c rest ih =>
      simp only [containsSub, Bool.or_eq_true, ih, List.infix_cons_iff,
        List.isPrefixOf_iff_prefix]

/-! ## The duplicate-key sets, via lookups -/

theorem mem_titleDupes_iff (s : SpiderState) (hnd : (mapKeys s.title_map).Nodup)
    (t : String) :
    t ∈ titleDupes s ↔ (mapLookup s.title_map t).length > 1 ∧ t ≠ "(no title)" := by
  unfold titleDupes
  rw [mem_filter_keys_iff _ _ _ hnd]
  constructor
  · rintro ⟨hmem, hP⟩
    simpa using hP
  · rintro ⟨h1, h2⟩
    have hmem : t ∈ mapKeys s.title_map := by
      by_contra hc
      rw [mapLookup_eq_nil_of_not_mem _ _ hc] at h1
      simp at h1
    exact ⟨hmem, by simpa using ⟨h1, h2⟩⟩

theorem mem_metaDupes_iff (s : SpiderState) (hnd : (mapKeys s.meta_map).Nodup)
    (t : String) :
    t ∈ metaDupes s ↔ (mapLookup s.meta_map t).length > 1 ∧ t ≠ "(no meta)" := by
  unfold metaDupes
  rw [mem_filter_keys_iff _ _ _ hnd]
  constructor
  · rintro ⟨hmem, hP⟩
    simpa using hP
  · rintro ⟨h1, h2⟩
    have hmem : t ∈ mapKeys s.meta_map := by
      by_contra hc
      rw [mapLookup_eq_nil_of_not_mem _ _ hc] at h1
      simp at h1
    exact ⟨hmem, by simpa using ⟨h1, h2⟩⟩

theorem mem_bodyDupeHashes_iff (s : SpiderState)
    (hnd : (mapKeys s.bodyhash_map).Nodup) (h : String) :
    h ∈ bodyDupeHashes s ↔ (mapLookup s.bodyhash_map h).length > 1 := by
  unfold bodyDupeHashes
  rw [mem_filter_keys_iff _ _ _ hnd]
  constructor
  · rintro ⟨hmem, hP⟩
    simpa using hP
  · intro h1
    have hmem : h ∈ mapKeys s.bodyhash_map := by
      by_contra hc
      rw [mapLookup_eq_nil_of_not_mem _ _ hc] at h1
      simp at h1
    exact ⟨hmem, by simpa using h1⟩

/-! ## What one `parse` call does to the state -/

theorem parse_site_root (s : SpiderState) (pd : PageData) :
    (parse s pd).1.site_root = s.site_root := by
  by_cases h : isSitemapResponse pd <;> simp [parse, h]

theorem parse_broken (s : SpiderState) (pd : PageData) :
    (parse s pd).1.broken_links_map = s.broken_links_map := by
  by_cases h : isSitemapResponse pd <;> simp [parse, h]

theorem parse_results (s : SpiderState) (pd : PageData) :
    (parse s pd).1.results =
      s.results ++ (if isSitemapResponse pd then [] else [mkItem pd]) := by
  by_cases h : isSitemapResponse pd <;> simp [parse, h]

theorem parse_title_lookup (s : SpiderState) (pd : PageData) (t : String) :
    mapLookup (parse s pd).1.title_map t =
      mapLookup s.title_map t ++
        (if isSitemapResponse pd then []
         else if titleKey pd = t then [pd.url] else []) := by
  by_cases h : isSitemapResponse pd
  · simp [parse, h]
  · have hK : pyOr (pyStrip (pyStrip (pd.titleText.getD ""))) "(no title)" = titleKey pd := rfl
    rcases eq_or_ne t (titleKey pd) with h2 | h2
    · simp [parse, h, mapLookup_mapAppend, hK, h2]
    · simp [parse, h, mapLookup_mapAppend, hK, h2, Ne.symm h2]

theorem parse_meta_lookup (s : SpiderState) (pd : PageData) (t : String) :
    mapLookup (parse s pd).1.meta_map t =
      mapLookup s.meta_map t ++
        (if isSitemapResponse pd then []
         else if metaKey pd = t then [pd.url] else []) := by
  by_cases h : isSitemapResponse pd
  · simp [parse, h]
  · have hK : pyOr (pyStrip (pyStrip (pd.metaDescContent.getD ""))) "(no meta)" = metaKey pd := rfl
    rcases eq_or_ne t (metaKey pd) with h2 | h2
    · simp [parse, h, mapLookup_mapAppend, hK, h2]
    · simp [parse, h, mapLookup_mapAppend, hK, h2, Ne.symm h2]

theorem parse_body_lookup (s : SpiderState) (pd : PageData) (h : String) :
    mapLookup (parse s pd).1.bodyhash_map h =
      mapLookup s.bodyhash_map h ++
        (if isSitemapResponse pd then []
         else if bodyHashOf pd = some h then [pd.url] else []) := by
  by_cases hs : isSitemapResponse pd
  · simp [parse, hs]
  · by_cases hb : pyStrip (String.join pd.bodyTexts) = ""
    · simp [parse, hs, hb, bodyHashOf]
    · rcases eq_or_ne h (sha1Hex (pyStrip (String.join pd.bodyTexts))) with h2 | h2
      · simp [parse, hs, hb, bodyHashOf, mapLookup_mapAppend, h2]
      · simp [parse, hs, hb, bodyHashOf, mapLookup_mapAppend, h2, Ne.symm h2]

theorem parse_titleKeys_nodup (s : SpiderState) (pd : PageData)
    (h : (mapKeys s.title_map).Nodup) : (mapKeys (parse s pd).1.title_map).Nodup := by
  by_cases hs : isSitemapResponse pd
  · simpa [parse, hs] using h
  · simpa [parse, hs] using nodup_mapKeys_mapAppend _ _ _ h

theorem parse_metaKeys_nodup (s : SpiderState) (pd : PageData)
    (h : (mapKeys s.meta_map).Nodup) : (mapKeys (parse s pd).1.meta_map).Nodup := by
  by_cases hs : isSitemapResponse pd
  · simpa [parse, hs] using h
  · simpa [parse, hs] using nodup_mapKeys_mapAppend _ _ _ h

theorem parse_bodyKeys_nodup (s : SpiderState) (pd : PageData)
    (h : (mapKeys s.bodyhash_map).Nodup) :
    (mapKeys (parse s pd).1.bodyhash_map).Nodup := by
  by_cases hs : isSitemapResponse pd
  · simpa [parse, hs] using h
  · by_cases hb : pyStrip (String.join pd.bodyTexts) = ""
    · simpa [parse, hs, hb] using h
    · simpa [parse, hs, hb] using nodup_mapKeys_mapAppend _ _ _ h

/-! ## What the discovery fold does -/

theorem foldParse_cons (s : SpiderState) (pd : PageData) (rest : List PageData) :
    foldParse s (pd :: rest) = foldParse (parse s pd).1 rest := by
  simp [foldParse]

theorem foldParse_site_root (pages : List PageData) : ∀ s : SpiderState,
    (foldParse s pages).site_root = s.site_root := by
  induction pages with
  | nil => intro s; rfl
  | cons pd rest ih =>
      intro s
      rw [foldParse_cons, ih, parse_site_root]

theorem foldParse_broken (pages : List PageData) : ∀ s : SpiderState,
    (foldParse s pages).broken_links_map = s.broken_links_map := by
  induction pages with
  | nil => intro s; rfl
  | cons pd rest ih =>
      intro s
      rw [foldParse_cons, ih, parse_broken]

theorem foldParse_results (pages : List PageData) : ∀ s : SpiderState,
    (foldParse s pages).results =
      s.results ++ pages.filterMap
        (fun pd => if isSitemapResponse pd then none else some (mkItem pd)) := by
  induction pages with
  | nil => intro s; simp [foldParse]
  | cons pd rest ih =>
      intro s
      rw [foldParse_cons, ih, parse_results]
      by_cases h : isSitemapResponse pd <;> simp [h]

theorem foldParse_title_lookup (pages : List PageData) : ∀ (s : SpiderState) (t : String),
    mapLookup (foldParse s pages).title_map t =
      mapLookup s.title_map t ++
        pages.filterMap (fun pd =>
          if isSitemapResponse pd then none
          else if titleKey pd = t then some pd.url else none) := by
  induction pages with
  | nil => intro s t; simp [foldParse]
  | cons pd rest ih =>
      intro s t
      rw [foldParse_cons, ih, parse_title_lookup]
      by_cases h : isSitemapResponse pd
      · simp [h]
      · by_cases h2 : titleKey pd = t <;> simp [h, h2]

theorem foldParse_meta_lookup (pages : List PageData) : ∀ (s : SpiderState) (t : String),
    mapLookup (foldParse s pages).meta_map t =
      mapLookup s.meta_map t ++
        pages.filterMap (fun pd =>
          if isSitemapResponse pd then none
          else if metaKey pd = t then some pd.url else none) := by
  induction pages with
  | nil => intro s t; simp [foldParse]
  | cons pd rest ih =>
      intro s t
      rw [foldParse_cons, ih, parse_meta_lookup]
      by_cases h : isSitemapResponse pd
      · simp [h]
      · by_cases h2 : metaKey pd = t <;> simp [h, h2]

theorem foldParse_body_lookup (pages : List PageData) : ∀ (s : SpiderState) (h : String),
    mapLookup (foldParse s pages).bodyhash_map h =
      mapLookup s.bodyhash_map h ++
        pages.filterMap (fun pd =>
          if isSitemapResponse pd then none
          else if bodyHashOf pd = some h then some pd.url else none) := by
  induction pages with
  | nil => intro s h; simp [foldParse]
  | cons pd rest ih =>
      intro s h
      rw [foldParse_cons, ih, parse_body_lookup]
      by_cases hs : isSitemapResponse pd
      · simp [hs]
      · by_cases h2 : bodyHashOf pd = some h <;> simp [hs, h2]

theorem foldParse_titleKeys_nodup (pages : List PageData) : ∀ s : SpiderState,
    (mapKeys s.title_map).Nodup → (mapKeys (foldParse s pages).title_map).Nodup := by
  induction pages with
  | nil => intro s h; exact h
  | cons pd rest ih =>
      intro s h
      rw [foldParse_cons]
      exact ih _ (parse_titleKeys_nodup s pd h)

theorem foldParse_metaKeys_nodup (pages : List PageData) : ∀ s : SpiderState,
    (mapKeys s.meta_map).Nodup → (mapKeys (foldParse s pages).meta_map).Nodup := by
  induction pages with
  | nil => intro s h; exact h
  | cons pd rest ih =>
      intro s h
      rw [foldParse_cons]
      exact ih _ (parse_metaKeys_nodup s pd h)

theorem foldParse_bodyKeys_nodup (pages : List PageData) : ∀ s : SpiderState,
    (mapKeys s.bodyhash_map).Nodup → (mapKeys (foldParse s pages).bodyhash_map).Nodup := by
  induction pages with
  | nil => intro s h; exact h
  | cons pd rest ih =>
      intro s h
      rw [foldParse_cons]
      exact ih _ (parse_bodyKeys_nodup s pd h)

/-! ## The aggregation pass, field by field -/

theorem aggRecord_websiteURL (s : SpiderState) (r : Item) :
    (aggRecord s r).websiteURL = r.websiteURL := by
  simp [aggRecord]

theorem aggRecord_metaTitle (s : SpiderState) (r : Item) :
    (aggRecord s r).metaTitle = r.metaTitle := by
  simp [aggRecord]

theorem aggRecord_metaDescription (s : SpiderState) (r : Item) :
    (aggRecord s r).metaDescription = r.metaDescription := by
  simp [aggRecord]

theorem aggRecord_brokenLinksCount (s : SpiderState) (r : Item) :
    (aggRecord s r).brokenLinksCount =
      (mapLookup s.broken_links_map r.websiteURL).length := by
  simp [aggRecord]

theorem aggRecord_brokenLinks (s : SpiderState) (r : Item) :
    (aggRecord s r).brokenLinks =
      String.intercalate "; "
        (((mapLookup s.broken_links_map r.websiteURL).take 10).map fmtBroken) := by
  simp [aggRecord]

theorem aggRecord_dupTitle10 (s : SpiderState) (r : Item) :
    (aggRecord s r).duplicateMetaTitle10 =
      if pyOr (pyStrip r.metaTitle) "(no title)" ∈ titleDupes s then 1 else 0 := by
  simp [aggRecord, List.contains]

theorem aggRecord_dupTitleStr (s : SpiderState) (r : Item) :
    (aggRecord s r).duplicateMetaTitle =
      if pyOr (pyStrip r.metaTitle) "(no title)" ∈ titleDupes s then "X"
      else r.duplicateMetaTitle := by
  simp [aggRecord, List.contains]

theorem aggRecord_dupMeta10 (s : SpiderState) (r : Item) :
    (aggRecord s r).duplicateMetaDescription10 =
      if pyOr (pyStrip r.metaDescription) "(no meta)" ∈ metaDupes s then 1 else 0 := by
  simp [aggRecord, List.contains]

theorem aggRecord_dupMetaStr (s : SpiderState) (r : Item) :
    (aggRecord s r).duplicateMetaDescription =
      if pyOr (pyStrip r.metaDescription) "(no meta)" ∈ metaDupes s then "X"
      else r.duplicateMetaDescription := by
  simp [aggRecord, List.contains]

theorem aggRecord_dupContent10 (s : SpiderState) (r : Item) :
    (aggRecord s r).duplicateContent10 =
      if foundDupContent s r.websiteURL then 1 else 0 := by
  simp [aggRecord]

theorem aggRecord_dupContentStr (s : SpiderState) (r : Item) :
    (aggRecord s r).duplicateContent =
      if foundDupContent s r.websiteURL then "X" else r.duplicateContent := by
  simp [aggRecord]

theorem aggRecord_imgs (s : SpiderState) (r : Item) :
    (aggRecord s r).imgsMissingAltCount = r.imgsMissingAltCount := by
  simp [aggRecord]

theorem aggRecord_missingTitle10 (s : SpiderState) (r : Item) :
    (aggRecord s r).missingMetaTitle10 = r.missingMetaTitle10 := by
  simp [aggRecord]

theorem aggRecord_idem (s : SpiderState) (r : Item) :
    aggRecord s (aggRecord s r) = aggRecord s r := by
  simp only [aggRecord]
  by_cases h1 : pyOr (pyStrip r.metaTitle) "(no title)" ∈ titleDupes s <;>
    by_cases h2 : pyOr (pyStrip r.metaDescription) "(no meta)" ∈ metaDupes s <;>
      by_cases h3 : foundDupContent s r.websiteURL = true <;>
        simp [List.contains, h1, h2, h3]

theorem spider_closed_title_map (s : SpiderState) :
    (spider_closed s).title_map = s.title_map := rfl

theorem spider_closed_results (s : SpiderState) :
    (spider_closed s).results = s.results.map (aggRecord s) := rfl

/-! ## Crawl-loop bookkeeping -/

theorem crawlStep_aggCount (site : String → Option PageData) (c : CrawlState) :
    (crawlStep site c).aggCount = c.aggCount := by
  cases hq : c.queue with
  | nil => simp [crawlStep, hq]
  | cons req rest =>
      cases req with
      | probe k u => cases hs : site u <;> simp [crawlStep, hq, hs]
      | discovery u =>
          cases hs : site u with
          | none => simp [crawlStep, hq, hs]
          | some pd => simp [crawlStep, hq, hs]
      | linkCheck u p t => cases hs : site u <;> simp [crawlStep, hq, hs]

theorem containsSub_trans (p p' s : List Char) (hpp : p' <:+: p)
    (h : containsSub p s = true) : containsSub p' s = true :=
  (containsSub_infix_iff p' s).mpr (hpp.trans ((containsSub_infix_iff p s).mp h))

theorem aggRecord_results_irrel (s : SpiderState) (X : List Item) (r : Item) :
    aggRecord { s with results := X } r = aggRecord s r := by
  simp [aggRecord, titleDupes, metaDupes, bodyDupeHashes, foundDupContent]

/-! ## The claims -/

/-- C4: after aggregation, every record's `Broken Links Count` equals the
full length of its entry in the broken-link index (uncapped), and the
rendered `Broken Links` text is built from at most the first 10 entries
even when the count exceeds 10. -/
theorem C4_broken_link_tally (s : SpiderState) (r : Item)
    (hr : r ∈ (spider_closed s).results) :
    r.brokenLinksCount = (mapLookup s.broken_links_map r.websiteURL).length ∧
    r.brokenLinks = String.intercalate "; "
      (((mapLookup s.broken_links_map r.websiteURL).take 10).map fmtBroken) ∧
    ((mapLookup s.broken_links_map r.websiteURL).take 10).length =
      min 10 (mapLookup s.broken_links_map r.websiteURL).length := by
  rcases List.mem_map.mp (by simpa [spider_closed_results] using hr) with ⟨r₀, hr₀, rfl⟩
  refine ⟨?_, ?_, ?_⟩
  · rw [aggRecord_brokenLinksCount, aggRecord_websiteURL]
  · rw [aggRecord_brokenLinks, aggRecord_websiteURL]
  · rw [aggRecord_websiteURL]
    exact List.length_take 10 (mapLookup s.broken_links_map r₀.websiteURL)

theorem C4_broken_link_tally_witness :
    C4row ∈ (spider_closed C4state).results ∧
    C4row.brokenLinksCount = (mapLookup C4state.broken_links_map C4row.websiteURL).length ∧
    (mapLookup C4state.broken_links_map C4row.websiteURL).length = 12 ∧
    ((mapLookup C4state.broken_links_map C4row.websiteURL).take 10).length = 10 :=
  ⟨by decide, (C4_broken_link_tally C4state C4row (by decide)).1, by decide, by decide⟩

/-- C5 (counterexample): supplying two seed types (a start URL and a
sitemap URL) does not raise; the crawler silently uses the start URL. -/
theorem C5_counterexample :
    spiderInit (some "https://a.example") (some "https://a.example/sitemap.xml") none =
      .ok (initialSpider ["https://a.example"]) := rfl

/-- C5 (amended): constructing with no seed raises the configuration
`ValueError` before any crawling; supplying several seed types does NOT
raise — the seed is chosen by precedence `urls_file` over `start_url`
over `sitemap` (and an all-blank URLs file raises `IndexError`). -/
theorem C5_seed_selection :
    (∀ su sm : Option String, ¬ truthyO su = true → ¬ truthyO sm = true →
       spiderInit su sm none =
         .error (.valueError "Provide start_url=, sitemap= or urls_file=")) ∧
    (∀ (su sm : Option String) (lines us : List String),
       (lines.map pyStrip).filter (fun l => l ≠ "") = us → us ≠ [] →
       spiderInit su sm (some lines) = .ok (initialSpider us)) ∧
    (∀ (su sm : Option String) (lines : List String),
       (lines.map pyStrip).filter (fun l => l ≠ "") = [] →
       spiderInit su sm (some lines) = .error .indexError) ∧
    (∀ (su sm : Option String) (u : String), su = some u → truthyO su = true →
       spiderInit su sm none = .ok (initialSpider [u])) ∧
    (∀ (sm : Option String) (m : String), sm = some m → truthyO sm = true →
       spiderInit none sm none = .ok (initialSpider [m])) := by
  refine ⟨?_, ?_, ?_, ?_, ?_⟩
  · intro su sm h1 h2
    simp only [spiderInit, Bool.not_eq_true] at *
    rw [h1, h2]
    simp
  · intro su sm lines us h1 h2
    cases us with
    | nil => exact absurd rfl h2
    | cons a as =>
        simp only [spiderInit, h1]
  · intro su sm lines h1
    simp only [spiderInit, h1]
  · intro su sm u h1 h2
    subst h1
    simp only [spiderInit, h2, if_true, Option.getD_some]
  · intro sm m h1 h2
    subst h1
    have h3 : decide (m ≠ "") = true := by simpa [truthyO] using h2
    simp [spiderInit, truthyO, h3]

theorem C5_seed_selection_witness :
    (["  https://c.example  "].map pyStrip).filter (fun l => l ≠ "") =
        ["https://c.example"] ∧
    spiderInit (some "https://a.example") (some "https://b.example")
        (some ["  https://c.example  "]) = .ok (initialSpider ["https://c.example"]) :=
  ⟨by decide,
   C5_seed_selection.2.1 (some "https://a.example") (some "https://b.example")
     ["  https://c.example  "] ["https://c.example"] (by decide) (by decide)⟩

/-- C8 (counterexample): for a redirected link-validation response with
status 404, the code records the response's final URL, not the scheduled
target URL carried in `meta['link_target']`, against the referrer. -/
theorem C8_counterexample :
    check_link [] C8resp =
      [("https://site.example/page",
        [("https://site.example/redirected-target", LinkStatus.code 404)])] ∧
    C8resp.url ≠ C8resp.metaLinkTarget := by
  decide

/-- C8 (amended): a network/protocol failure appends `(targetUrl, "ERR")`
to the referrer's list; a response with status ≥ 400 appends
`(finalResponseUrl, status)` — the final URL equals the scheduled target
only when no redirect occurred; a response with status < 400 leaves the
index unchanged.  Both handlers are total functions: validation never
raises. -/
theorem C8_link_validation (m : List (String × List (String × LinkStatus)))
    (resp : LinkCheckResponse) (req : FailedRequest) :
    (400 ≤ resp.status →
       check_link m resp = mapAppend m resp.metaParent (resp.url, .code resp.status)) ∧
    (resp.status < 400 → check_link m resp = m) ∧
    link_errback m req =
      mapAppend m req.metaParent (pyOr req.metaLinkTarget req.url, .err) := by
  refine ⟨?_, ?_, rfl⟩
  · intro h
    simp [check_link, h]
  · intro h
    simp [check_link, Nat.not_le.mpr h]

theorem C8_link_validation_witness :
    400 ≤ C8resp.status ∧
    check_link [] C8resp =
      mapAppend [] C8resp.metaParent (C8resp.url, .code C8resp.status) ∧
    link_errback [] C8req =
      mapAppend [] C8req.metaParent (pyOr C8req.metaLinkTarget C8req.url, .err) :=
  ⟨by decide, (C8_link_validation [] C8resp C8req).1 (by decide),
   (C8_link_validation [] C8resp C8req).2.2⟩

/-- C9: the aggregation pass is idempotent — run twice on the same frozen
state it produces the same per-page rows (flags, rendered fields) and the
same site-wide totals as run once. -/
theorem C9_aggregation_idempotent (s : SpiderState) :
    spider_closed (spider_closed s) = spider_closed s ∧
    summaryTotals (spider_closed (spider_closed s)) = summaryTotals (spider_closed s) := by
  have key : (s.results.map (aggRecord s)).map
      (aggRecord { s with results := s.results.map (aggRecord s) }) =
      s.results.map (aggRecord s) := by
    rw [List.map_congr_left
      (fun r _ => aggRecord_results_irrel s (s.results.map (aggRecord s)) r)]
    rw [List.map_map]
    exact List.map_congr_left (fun r _ => aggRecord_idem s r)
  have h : spider_closed (spider_closed s) = spider_closed s := by
    have hL : spider_closed (spider_closed s) =
        { s with results := (s.results.map (aggRecord s)).map
                              (aggRecord { s with
                                  results := s.results.map (aggRecord s) }) } := rfl
    have hR : spider_closed s = { s with results := s.results.map (aggRecord s) } := rfl
    rw [hL, hR, key]
  exact ⟨h, by rw [h]⟩

/-- C6 (counterexample): a status-200 response for a candidate URL ending
in `.xml` whose body holds no `<urlset` marker (it is HTML-looking) still
sets `xml_sitemap_exists` — the URL suffix alone suffices — and leaves
`html_sitemap_exists` untouched, refuting both the claimed
"if and only if" and the claimed HTML-looking behaviour. -/
theorem C6_counterexample :
    (parse_sitemap_probe initialSiteInfo C6resp).xml_sitemap_exists = some true ∧
    containsSub "<urlset".toList (lowerChars (strTake C6resp.text 2000)) = false ∧
    containsSub "<html".toList (lowerChars (strTake C6resp.text 2000)) = true ∧
    C6resp.status = 200 ∧
    (parse_sitemap_probe initialSiteInfo C6resp).html_sitemap_exists = none := by
  refine ⟨by decide, by decide, by decide, rfl, by decide⟩

/-- C6 (amended): a sitemap-candidate probe sets `xmlSitemapExists := true`
iff the status is 200 AND (the response URL ends in `".xml"` OR the first
2000 characters of the body contain `"<urlset"` case-insensitively); it
sets `htmlSitemapExists := true` iff the status is 200, the XML condition
fails, and the first 2000 characters contain `"<html"`; otherwise it
leaves both fields unknown. -/
theorem C6_sitemap_probe (r : ProbeResponse) :
    ((parse_sitemap_probe initialSiteInfo r).xml_sitemap_exists = some true ↔
      r.status = 200 ∧ (strEndsWith r.url ".xml" = true ∨
        containsSub "<urlset".toList (lowerChars (strTake r.text 2000)) = true)) ∧
    ((parse_sitemap_probe initialSiteInfo r).html_sitemap_exists = some true ↔
      r.status = 200 ∧
      ¬ (strEndsWith r.url ".xml" = true ∨
         containsSub "<urlset".toList (lowerChars (strTake r.text 2000)) = true) ∧
      containsSub "<html".toList (lowerChars (strTake r.text 2000)) = true) ∧
    (¬ (r.status = 200 ∧ (strEndsWith r.url ".xml" = true ∨
          containsSub "<urlset".toList (lowerChars (strTake r.text 2000)) = true)) →
     ¬ (r.status = 200 ∧
          containsSub "<html".toList (lowerChars (strTake r.text 2000)) = true) →
     parse_sitemap_probe initialSiteInfo r = initialSiteInfo) := by
  by_cases h1 : r.status = 200 ∧ (strEndsWith r.url ".xml" = true ∨
      containsSub "<urlset".toList (lowerChars (strTake r.text 2000)) = true)
  · unfold parse_sitemap_probe
    rw [if_pos h1]
    refine ⟨⟨fun _ => h1, fun _ => rfl⟩, ?_, ?_⟩
    · constructor
      · intro hc
        exact absurd hc (by simp [initialSiteInfo])
      · rintro ⟨_, hnor, _⟩
        exact absurd h1.2 hnor
    · intro hc
      exact absurd h1 hc
  · by_cases h2 : r.status = 200 ∧
        containsSub "<html".toList (lowerChars (strTake r.text 2000)) = true
    · unfold parse_sitemap_probe
      rw [if_neg h1, if_pos h2]
      refine ⟨?_, ?_, ?_⟩
      · constructor
        · intro hc
          exact absurd hc (by simp [initialSiteInfo])
        · intro hc
          exact absurd hc h1
      · constructor
        · intro _
          exact ⟨h2.1, fun hor => h1 ⟨h2.1, hor⟩, h2.2⟩
        · intro _
          rfl
      · intro _ hc
        exact absurd h2 hc
    · unfold parse_sitemap_probe
      rw [if_neg h1, if_neg h2]
      refine ⟨?_, ?_, ?_⟩
      · constructor
        · intro hc
          exact absurd hc (by simp [initialSiteInfo])
        · intro hc
          exact absurd hc h1
      · constructor
        · intro hc
          exact absurd hc (by simp [initialSiteInfo])
        · rintro ⟨hs, _, hh⟩
          exact absurd ⟨hs, hh⟩ h2
      · intro _ _
        rfl

/-- C7: the random-path probe stores the distinguished no-custom-page
value (Python `True`) for a 404 status; for a 200 status it stores
`"present_but_200"` when the lowercased body's first 2000 characters
contain `"404"` or `"not found"`, and `False` otherwise; a network
failure routes to the swallowing errback, leaving `custom_404` unknown. -/
theorem C7_custom404_probe (si : SiteInfo) (r : ProbeResponse) :
    (r.status = 404 →
       parse_404_probe si r = { si with custom_404 := some .trueVal }) ∧
    (r.status = 200 →
       (containsSub "404".toList ((lowerChars r.text.toList).take 2000) = true ∨
        containsSub "not found".toList ((lowerChars r.text.toList).take 2000) = true) →
       parse_404_probe si r = { si with custom_404 := some .presentBut200 }) ∧
    (r.status = 200 →
       ¬ (containsSub "404".toList ((lowerChars r.text.toList).take 2000) = true ∨
          containsSub "not found".toList ((lowerChars r.text.toList).take 2000) = true) →
       parse_404_probe si r = { si with custom_404 := some .falseVal }) ∧
    errback_probe si = si := by
  refine ⟨?_, ?_, ?_, rfl⟩
  · intro h
    simp only [parse_404_probe]
    rw [if_pos h]
  · intro hs hm
    have h404 : ¬ r.status = 404 := by omega
    have hcond : containsSub "404".toList ((lowerChars r.text.toList).take 2000) = true ∨
        containsSub "not found".toList ((lowerChars r.text.toList).take 2000) = true ∨
        containsSub "page not found".toList ((lowerChars r.text.toList).take 2000) = true := by
      rcases hm with hm | hm
      · exact Or.inl hm
      · exact Or.inr (Or.inl hm)
    simp only [parse_404_probe]
    rw [if_neg h404, if_pos hcond]
  · intro hs hm
    push_neg at hm
    have h404 : ¬ r.status = 404 := by omega
    have hpnf : ¬ containsSub "page not found".toList
        ((lowerChars r.text.toList).take 2000) = true := by
      intro hc
      exact hm.2 (containsSub_trans _ _ _ (by decide) hc)
    have hcond : ¬ (containsSub "404".toList ((lowerChars r.text.toList).take 2000) = true ∨
        containsSub "not found".toList ((lowerChars r.text.toList).take 2000) = true ∨
        containsSub "page not found".toList ((lowerChars r.text.toList).take 2000) = true) := by
      rintro (hc | hc | hc)
      · exact hm.1 hc
      · exact hm.2 hc
      · exact hpnf hc
    simp only [parse_404_probe]
    rw [if_neg h404, if_neg hcond]

theorem C7_custom404_probe_witness :
    C7resp.status = 200 ∧
    containsSub "not found".toList ((lowerChars C7resp.text.toList).take 2000) = true ∧
    parse_404_probe initialSiteInfo C7resp =
      { initialSiteInfo with custom_404 := some .presentBut200 } :=
  ⟨rfl, by decide,
   (C7_custom404_probe initialSiteInfo C7resp).2.1 rfl (Or.inr (by decide))⟩

theorem C6_sitemap_probe_witness :
    (¬ (C6resp2.status = 200 ∧ (strEndsWith C6resp2.url ".xml" = true ∨
        containsSub "<urlset".toList (lowerChars (strTake C6resp2.text 2000)) = true))) ∧
    (¬ (C6resp2.status = 200 ∧
        containsSub "<html".toList (lowerChars (strTake C6resp2.text 2000)) = true)) ∧
    parse_sitemap_probe initialSiteInfo C6resp2 = initialSiteInfo :=
  ⟨by decide, by decide,
   (C6_sitemap_probe C6resp2).2.2 (by decide) (by decide)⟩

/-- C1: after the final aggregation pass over a crawl whose pages carry
pairwise-distinct final URLs, a record whose normalized title (stripped,
empty replaced by the `"(no title)"` sentinel) has an index entry of two
or more URLs — and is not the sentinel — carries duplicate-title flag 1,
and a record whose normalized title has an index entry of exactly one URL
carries flag 0; the same law holds for meta descriptions (sentinel
`"(no meta)"`) and for the record's body-content-hash entries. -/
theorem C1_duplicate_flag_law (root : String) (pages : List PageData)
    (hnd : (pages.map PageData.url).Nodup) (r : Item)
    (hr : r ∈ (spider_closed (buildState root pages)).results) :
    ((mapLookup (buildState root pages).title_map
        (pyOr (pyStrip r.metaTitle) "(no title)")).length ≥ 2 ∧
      pyOr (pyStrip r.metaTitle) "(no title)" ≠ "(no title)" →
      r.duplicateMetaTitle10 = 1) ∧
    ((mapLookup (buildState root pages).title_map
        (pyOr (pyStrip r.metaTitle) "(no title)")).length = 1 →
      r.duplicateMetaTitle10 = 0) ∧
    ((mapLookup (buildState root pages).meta_map
        (pyOr (pyStrip r.metaDescription) "(no meta)")).length ≥ 2 ∧
      pyOr (pyStrip r.metaDescription) "(no meta)" ≠ "(no meta)" →
      r.duplicateMetaDescription10 = 1) ∧
    ((mapLookup (buildState root pages).meta_map
        (pyOr (pyStrip r.metaDescription) "(no meta)")).length = 1 →
      r.duplicateMetaDescription10 = 0) ∧
    (∀ h : String, r.websiteURL ∈ mapLookup (buildState root pages).bodyhash_map h →
      ((mapLookup (buildState root pages).bodyhash_map h).length ≥ 2 →
        r.duplicateContent10 = 1) ∧
      ((mapLookup (buildState root pages).bodyhash_map h).length = 1 →
        r.duplicateContent10 = 0)) := by
  have hndT : (mapKeys (buildState root pages).title_map).Nodup :=
    foldParse_titleKeys_nodup pages (initialSpider [root])
      (by simp [initialSpider, mapKeys])
  have hndM : (mapKeys (buildState root pages).meta_map).Nodup :=
    foldParse_metaKeys_nodup pages (initialSpider [root])
      (by simp [initialSpider, mapKeys])
  have hndB : (mapKeys (buildState root pages).bodyhash_map).Nodup :=
    foldParse_bodyKeys_nodup pages (initialSpider [root])
      (by simp [initialSpider, mapKeys])
  have hchar : ∀ hh : String, mapLookup (buildState root pages).bodyhash_map hh =
      pages.filterMap (fun pd =>
        if isSitemapResponse pd then none
        else if bodyHashOf pd = some hh then some pd.url else none) := by
    intro hh
    have h0 := foldParse_body_lookup pages (initialSpider [root]) hh
    simpa [buildState, initialSpider] using h0
  have hdest : ∀ (hh : String) (pd : PageData) (u : String),
      (if isSitemapResponse pd then none
       else if bodyHashOf pd = some hh then some pd.url else none) = some u →
      bodyHashOf pd = some hh ∧ pd.url = u := by
    intro hh pd u hif
    by_cases h1 : isSitemapResponse pd
    · simp [h1] at hif
    · by_cases h2 : bodyHashOf pd = some hh
      · simp [h1, h2] at hif
        exact ⟨h2, hif⟩
      · simp [h1, h2] at hif
  rcases List.mem_map.mp (by simpa [spider_closed_results] using hr) with ⟨r₀, hr₀, rfl⟩
  refine ⟨?_, ?_, ?_, ?_, ?_⟩
  · rintro ⟨hlen, hsent⟩
    rw [aggRecord_metaTitle] at hlen hsent
    rw [aggRecord_dupTitle10, if_pos]
    exact (mem_titleDupes_iff _ hndT _).mpr ⟨by omega, hsent⟩
  · intro hlen
    rw [aggRecord_metaTitle] at hlen
    rw [aggRecord_dupTitle10, if_neg]
    intro hmem
    have := ((mem_titleDupes_iff _ hndT _).mp hmem).1
    omega
  · rintro ⟨hlen, hsent⟩
    rw [aggRecord_metaDescription] at hlen hsent
    rw [aggRecord_dupMeta10, if_pos]
    exact (mem_metaDupes_iff _ hndM _).mpr ⟨by omega, hsent⟩
  · intro hlen
    rw [aggRecord_metaDescription] at hlen
    rw [aggRecord_dupMeta10, if_neg]
    intro hmem
    have := ((mem_metaDupes_iff _ hndM _).mp hmem).1
    omega
  · intro h hmem
    rw [aggRecord_websiteURL] at hmem
    constructor
    · intro hlen
      rw [aggRecord_dupContent10, if_pos]
      have hk : h ∈ mapKeys (buildState root pages).bodyhash_map := by
        by_contra hc
        rw [mapLookup_eq_nil_of_not_mem _ _ hc] at hmem
        simp at hmem
      have hment := mem_of_mem_mapKeys _ _ hk
      have hdup : h ∈ bodyDupeHashes (buildState root pages) :=
        (mem_bodyDupeHashes_iff _ hndB h).mpr (by omega)
      show foundDupContent (buildState root pages) r₀.websiteURL = true
      refine List.any_eq_true.mpr
        ⟨(h, mapLookup (buildState root pages).bodyhash_map h), hment, ?_⟩
      simp only [Bool.and_eq_true]
      constructor
      · simpa [List.contains] using hmem
      · simpa [List.contains] using hdup
    · intro hlen1
      rw [aggRecord_dupContent10, if_neg]
      intro hfound
      obtain ⟨⟨h', vs'⟩, hmem', hpred⟩ := List.any_eq_true.mp hfound
      simp only [Bool.and_eq_true] at hpred
      have hpu : r₀.websiteURL ∈ vs' := by simpa [List.contains] using hpred.1
      have hpd2 : h' ∈ bodyDupeHashes (buildState root pages) := by
        simpa [List.contains] using hpred.2
      have hvs : mapLookup (buildState root pages).bodyhash_map h' = vs' :=
        lookup_of_mem_of_nodup _ _ _ hndB hmem'
      have hlen' : (mapLookup (buildState root pages).bodyhash_map h').length > 1 :=
        (mem_bodyDupeHashes_iff _ hndB h').mp hpd2
      have hu' : r₀.websiteURL ∈ mapLookup (buildState root pages).bodyhash_map h' := by
        rw [hvs]
        exact hpu
      by_cases he : h' = h
      · subst he
        omega
      · rw [hchar] at hmem hu'
        obtain ⟨pd, hpd, hfd⟩ := List.mem_filterMap.mp hmem
        obtain ⟨pd', hpd', hfd'⟩ := List.mem_filterMap.mp hu'
        obtain ⟨hh1, hu1⟩ := hdest h pd _ hfd
        obtain ⟨hh2, hu2⟩ := hdest h' pd' _ hfd'
        have hpp : pd = pd' :=
          List.inj_on_of_nodup_map hnd hpd hpd' (by rw [hu1, hu2])
        rw [hpp, hh2] at hh1
        exact he (Option.some.inj hh1)

theorem C1_duplicate_flag_law_witness :
    (C1pages.map PageData.url).Nodup ∧
    C1row ∈ (spider_closed (buildState "https://s.example/" C1pages)).results ∧
    ((mapLookup (buildState "https://s.example/" C1pages).title_map
        (pyOr (pyStrip C1row.metaTitle) "(no title)")).length ≥ 2 ∧
      pyOr (pyStrip C1row.metaTitle) "(no title)" ≠ "(no title)") ∧
    C1row.duplicateMetaTitle10 = 1 ∧
    C1row.websiteURL ∈ mapLookup (buildState "https://s.example/" C1pages).bodyhash_map
      (sha1Hex "same body") ∧
    C1row.duplicateContent10 = 1 :=
  ⟨by decide, by decide, by decide,
   (C1_duplicate_flag_law "https://s.example/" C1pages (by decide) C1row
     (by decide)).1 (by decide),
   by decide,
   ((C1_duplicate_flag_law "https://s.example/" C1pages (by decide) C1row
     (by decide)).2.2.2.2 (sha1Hex "same body") (by decide)).1 (by decide)⟩

/-- C10: at construction and again after the aggregation pass, the
human-readable duplicate columns agree with the numeric flags: the column
reads `"X"` exactly when the matching `(1/0)` flag is 1, for titles,
descriptions and content alike. -/
theorem C10_flag_string_agreement (root : String) (pages : List PageData) :
    (∀ r ∈ (buildState root pages).results,
        (r.duplicateMetaTitle = "X" ↔ r.duplicateMetaTitle10 = 1) ∧
        (r.duplicateMetaDescription = "X" ↔ r.duplicateMetaDescription10 = 1) ∧
        (r.duplicateContent = "X" ↔ r.duplicateContent10 = 1)) ∧
    (∀ r ∈ (spider_closed (buildState root pages)).results,
        (r.duplicateMetaTitle = "X" ↔ r.duplicateMetaTitle10 = 1) ∧
        (r.duplicateMetaDescription = "X" ↔ r.duplicateMetaDescription10 = 1) ∧
        (r.duplicateContent = "X" ↔ r.duplicateContent10 = 1)) := by
  have hconstr : ∀ r ∈ (buildState root pages).results,
      r.duplicateMetaTitle = "" ∧ r.duplicateMetaTitle10 = 0 ∧
      r.duplicateMetaDescription = "" ∧ r.duplicateMetaDescription10 = 0 ∧
      r.duplicateContent = "" ∧ r.duplicateContent10 = 0 := by
    intro r hr
    rw [buildState, foldParse_results] at hr
    have hr' : r ∈ pages.filterMap
        (fun pd => if isSitemapResponse pd then none else some (mkItem pd)) := by
      simpa [initialSpider] using hr
    obtain ⟨pd, hpd, hsome⟩ := List.mem_filterMap.mp hr'
    by_cases hs : isSitemapResponse pd
    · simp [hs] at hsome
    · simp only [hs, if_false, Option.some.injEq, Bool.false_eq_true, if_neg] at hsome
      rw [← hsome]
      simp [mkItem]
  constructor
  · intro r hr
    obtain ⟨h1, h2, h3, h4, h5, h6⟩ := hconstr r hr
    rw [h1, h2, h3, h4, h5, h6]
    decide
  · intro r hr
    rcases List.mem_map.mp (by simpa [spider_closed_results] using hr) with ⟨r₀, hr₀, rfl⟩
    obtain ⟨h1, h2, h3, h4, h5, h6⟩ := hconstr r₀ hr₀
    refine ⟨?_, ?_, ?_⟩
    · rw [aggRecord_dupTitleStr, aggRecord_dupTitle10]
      by_cases hm : pyOr (pyStrip r₀.metaTitle) "(no title)" ∈
          titleDupes (buildState root pages)
      · simp [hm]
      · rw [if_neg hm, if_neg hm, h1]
        decide
    · rw [aggRecord_dupMetaStr, aggRecord_dupMeta10]
      by_cases hm : pyOr (pyStrip r₀.metaDescription) "(no meta)" ∈
          metaDupes (buildState root pages)
      · simp [hm]
      · rw [if_neg hm, if_neg hm, h3]
        decide
    · rw [aggRecord_dupContentStr, aggRecord_dupContent10]
      by_cases hm : foundDupContent (buildState root pages) r₀.websiteURL = true
      · simp [hm]
      · rw [if_neg hm, if_neg hm, h5]
        decide

theorem C10_flag_string_agreement_witness :
    C1row ∈ (spider_closed (buildState "https://s.example/" C1pages)).results ∧
    (C1row.duplicateMetaTitle = "X" ↔ C1row.duplicateMetaTitle10 = 1) :=
  ⟨by decide,
   ((C10_flag_string_agreement "https://s.example/" C1pages).2 C1row (by decide)).1⟩

/-- C2 (code defect): on a two-page cycle the discovery stream re-enqueues
an already-crawled URL — every discovery request is issued with
`dont_filter=True` and no URL-seen set exists — so after five resolutions
the results collection holds two records for the seed URL (and the crawl
would loop forever).  The claim says each unique URL yields at most one
record. -/
theorem C2_duplicate_records_from_reenqueue :
    ((crawlSteps C2site 5 C2start).spider.results.map Item.websiteURL) =
      ["https://site.example/a", "https://site.example/b",
       "https://site.example/a"] ∧
    ¬ ((crawlSteps C2site 5 C2start).spider.results.map Item.websiteURL).Nodup := by
  constructor
  · decide
  · decide

/-- C3 (orchestrator modelled from the spec): whenever the request queue
drains within the fuel bound, the drained session `c₀` has no pending
request, its aggregation counter is untouched by the stepping (the
Aggregator never ran while a fetch was unresolved), and the full run
equals applying the Aggregator exactly once to `c₀` — raising the
counter exactly from its initial value to one more. -/
theorem C3_aggregator_once_after_drain (site : String → Option PageData)
    (fuel : Nat) (c : CrawlState) (h : (crawlDrain site fuel c).isSome = true) :
    ∃ c₀, crawlDrain site fuel c = some c₀ ∧ c₀.queue = [] ∧
      c₀.aggCount = c.aggCount ∧
      runCrawl site fuel c = some (closeCrawl c₀) ∧
      (closeCrawl c₀).aggCount = c.aggCount + 1 := by
  induction fuel generalizing c with
  | zero => simp [crawlDrain] at h
  | succ n ih =>
      by_cases hq : c.queue = []
      · refine ⟨c, by simp [crawlDrain, hq], hq, rfl, ?_, by simp [closeCrawl]⟩
        simp [runCrawl, crawlDrain, hq]
      · have h' : (crawlDrain site n (crawlStep site c)).isSome = true := by
          simpa [crawlDrain, hq] using h
        obtain ⟨c₀, h1, h2, h3, h4, h5⟩ := ih (crawlStep site c) h'
        have hagg : c₀.aggCount = c.aggCount := by
          rw [h3, crawlStep_aggCount]
        refine ⟨c₀, ?_, h2, hagg, ?_, ?_⟩
        · simpa [crawlDrain, hq] using h1
        · have hrun : runCrawl site (n + 1) c = runCrawl site n (crawlStep site c) := by
            simp [runCrawl, crawlDrain, hq]
          rw [hrun, h4]
        · simp [closeCrawl, hagg]

theorem C3_aggregator_once_after_drain_witness :
    (crawlDrain C3site 3 C3start).isSome = true ∧
    (∃ c₀, crawlDrain C3site 3 C3start = some c₀ ∧ c₀.queue = [] ∧
      c₀.aggCount = C3start.aggCount ∧
      runCrawl C3site 3 C3start = some (closeCrawl c₀) ∧
      (closeCrawl c₀).aggCount = C3start.aggCount + 1) :=
  ⟨by decide, C3_aggregator_once_after_drain C3site 3 C3start (by decide)⟩

end WebAudit
